import Mathlib

/-!
Shallow embedding of the data-consolidation pipeline of `build_duckdb.py`
(repository connectly-app).  Tables are lists of typed rows; SQL NULL is
`Option`; SQL `GROUP BY` is modelled by deduplicated keys plus filtering;
DuckDB semantics are followed for NULL comparisons (an equality against
NULL never matches), for `COUNT(DISTINCT x)` (distinct non-null values),
for `SUM` (ignores NULLs, NULL on an all-null group) and for division by
zero (yields NULL, not an error).
-/

/-- A calendar timestamp at day granularity (the pipeline never uses finer
resolution than the day).  `DATE_TRUNC("month", t)` keeps year and month
and resets the day to 1. -/
structure Timestamp where
  year : Int
  month : Nat
  day : Nat
deriving DecidableEq, Repr

/-- `DATE_TRUNC("month", t)::DATE`. -/
def dateTruncMonth (t : Timestamp) : Timestamp :=
  ⟨t.year, t.month, 1⟩

/-- SQL equality used in joins: a comparison involving NULL is not true. -/
def optEq {α : Type} [DecidableEq α] : Option α → Option α → Bool
  | some a, some b => decide (a = b)
  | _, _ => false

/-- NULL-propagating integer addition: `x + y` is NULL when either side is
NULL (the source computes `button_responses + link_clicks` with no
COALESCE). -/
def addNull : Option Int → Option Int → Option Int
  | some a, some b => some (a + b)
  | _, _ => none

/-- `COUNT(*)` over a group. -/
def countStar {α : Type} (l : List α) : Nat := l.length

/-- `COUNT(DISTINCT x)`: number of distinct non-null values. -/
def countDistinct {α : Type} [DecidableEq α] (l : List (Option α)) : Nat :=
  (l.filterMap id).dedup.length

/-- `SUM(x)` over a nullable column: NULLs are ignored; the sum of an
empty or all-null group is NULL. -/
def sumNull (l : List (Option Int)) : Option Int :=
  let v := l.filterMap id
  if v.isEmpty then none else some v.sum

/-- DuckDB division: NULL on a zero denominator, never an error. -/
def divNull (a b : ℚ) : Option ℚ :=
  if b = 0 then none else some (a / b)

/-- Round to the nearest integer, halves away from zero (all rounded
quantities in the pipeline are non-negative, so this is floor of x+1/2). -/
def roundHalf (q : ℚ) : ℤ := ⌊q + 1/2⌋

/-- `ROUND(x, 1)`. -/
def round1 (q : ℚ) : ℚ := (roundHalf (q * 10) : ℚ) / 10

/-- The distinct grouping keys of a list, in first-occurrence order:
the groups produced by `GROUP BY`. -/
def groupKeys {α κ : Type} [DecidableEq κ] (key : α → κ) (l : List α) : List κ :=
  (l.map key).dedup

/-- The rows of one `GROUP BY` group. -/
def groupRows {α κ : Type} [DecidableEq κ] (key : α → κ) (l : List α) (k : κ) : List α :=
  l.filter (fun a => decide (key a = k))

/-! ## Input rows (step 1, 2, 4 of the script) -/

/-- One row of `camp_raw`: the dispatch-event columns selected in step 1,
every one of them nullable in the raw parquet. -/
structure CampRawRow where
  user : Option String
  business_id : Option String
  sendout_name : Option String
  dispatched_at : Option Timestamp
  delivered : Option String
  button_responses : Option Int
  link_clicks : Option Int
deriving DecidableEq, Repr

/-- One row of `product_map`. -/
structure MapRow where
  business_id : Option String
  product : Option String
deriving DecidableEq, Repr

/-- One raw activity row (step 4 input). -/
structure ActRawRow where
  user_phone : Option String
  product : Option String
  activity_date : Option Timestamp
deriving DecidableEq, Repr

/-- One row of the normalized `camp` table (step 3). -/
structure CampRow where
  month : Option Timestamp
  product : String
  sendout_name : Option String
  user : Option String
  delivered : Bool
  clicks : Option Int
deriving DecidableEq, Repr

/-- One row of the `act` table (step 4). -/
structure ActRow where
  user : Option String
  product : Option String
  activity_date : Option Timestamp
  month : Option Timestamp
deriving DecidableEq, Repr

/-- Step 3, the LEFT JOIN part: the products matching a raw row's
`business_id`; an unmatched (or NULL) id yields the single NULL product
of an outer join. -/
def joinProducts (product_map : List MapRow) (cr : CampRawRow) : List (Option String) :=
  let ms := product_map.filter (fun p => optEq p.business_id cr.business_id)
  if ms.isEmpty then [none] else ms.map (fun p => p.product)

/-- Step 3: `CREATE TABLE camp` — month bucket, product via
`COALESCE(p.product, "Unknown")` over the left join, delivered flag
`delivered IS NOT NULL`, and `clicks = button_responses + link_clicks`
(NULL-propagating: the source has no COALESCE here). -/
def camp (product_map : List MapRow) (camp_raw : List CampRawRow) : List CampRow :=
  camp_raw.flatMap (fun cr =>
    (joinProducts product_map cr).map (fun prod =>
      { month := cr.dispatched_at.map dateTruncMonth
        product := prod.getD "Unknown"
        sendout_name := cr.sendout_name
        user := cr.user
        delivered := cr.delivered.isSome
        clicks := addNull cr.button_responses cr.link_clicks }))

/-- Step 4: `CREATE TABLE act`. -/
def act (raw : List ActRawRow) : List ActRow :=
  raw.map (fun a =>
    { user := a.user_phone
      product := a.product
      activity_date := a.activity_date
      month := a.activity_date.map dateTruncMonth })

/-! ## Step 5: monthly_metrics -/

/-- One row of `monthly_metrics`. -/
structure MonthlyRow where
  month : Option Timestamp
  sent : Nat
  delivered : Nat
  delivery_rate : Option ℚ
  meta_cost : ℤ
  connectly_cost : ℤ
deriving DecidableEq, Repr

/-- Step 5: group `camp` by month; `sent = COUNT(*)`,
`delivered = COUNT(*) FILTER (WHERE delivered)`,
`delivery_rate = ROUND(delivered*100.0/COUNT(*), 1)`, plus the two
rounded cost transforms of `delivered`. -/
def monthly_metrics (c : List CampRow) : List MonthlyRow :=
  (groupKeys (fun r => r.month) c).map (fun m =>
    let g := groupRows (fun r => r.month) c m
    let sent := countStar g
    let del := countStar (g.filter (fun r => r.delivered))
    { month := m
      sent := sent
      delivered := del
      delivery_rate := (divNull ((del : ℚ) * 100) (sent : ℚ)).map round1
      meta_cost := roundHalf ((del : ℚ) * (96/100) * (107/10000) + (del : ℚ) * (4/100) * (14/10000))
      connectly_cost := roundHalf ((del : ℚ) * (90/100) * (123/10000) + 500) })

/-! ## Step 6: funnel_by_product -/

/-- One row of `funnel_by_product`. -/
structure FunnelRow where
  month : Option Timestamp
  product : String
  sent : Nat
  delivered : Nat
  clicked : Nat
  delivery_rate : Option ℚ
  click_rate : Option ℚ
deriving DecidableEq, Repr

/-- The SQL condition `clicks > 0` on a nullable column: false on NULL. -/
def clicksPos : Option Int → Bool
  | some c => decide (0 < c)
  | none => false

/-- Step 6: filter out product "Unknown", group by (month, product);
distinct-user counts and the two rates. -/
def funnel_by_product (c : List CampRow) : List FunnelRow :=
  let src := c.filter (fun r => decide (r.product ≠ "Unknown"))
  (groupKeys (fun r => (r.month, r.product)) src).map (fun k =>
    let g := groupRows (fun r => (r.month, r.product)) src k
    let sent := countDistinct (g.map (fun r => r.user))
    let del := countDistinct (g.map (fun r => if r.delivered then r.user else none))
    let clk := countDistinct (g.map (fun r => if clicksPos r.clicks then r.user else none))
    { month := k.1
      product := k.2
      sent := sent
      delivered := del
      clicked := clk
      delivery_rate := (divNull ((del : ℚ) * 100) (sent : ℚ)).map round1
      click_rate := (divNull ((clk : ℚ) * 100) (sent : ℚ)).map round1 })

/-! ## Steps 7 and 8 share the per-(user, month, product) activity-day CTE -/

/-- One row of the `act_days` / `activity_seg` CTE. -/
structure ActDays where
  user : Option String
  month : Option Timestamp
  product : Option String
  days : Nat
deriving DecidableEq, Repr

/-- The CTE `SELECT user, month, product, COUNT(DISTINCT activity_date)
AS days FROM act GROUP BY 1,2,3` (named `act_days` in step 7 and
`activity_seg` in step 8, identical text). -/
def act_days (a : List ActRow) : List ActDays :=
  (groupKeys (fun r => (r.user, r.month, r.product)) a).map (fun k =>
    { user := k.1
      month := k.2.1
      product := k.2.2
      days := countDistinct ((groupRows (fun r => (r.user, r.month, r.product)) a k).map
        (fun r => r.activity_date)) })

/-- The join condition of steps 7 and 8: activity key equals the
dispatch-side (user, month, product), NULL-rejecting on each component
(the dispatch-side product is never NULL). -/
def matchAct (a : ActDays) (u : Option String) (m : Option Timestamp) (p : String) : Bool :=
  optEq a.user u && optEq a.month m && optEq a.product (some p)

/-! ## Step 7: nudge_vs_activity -/

/-- One row of the `nudged` CTE: `SELECT DISTINCT month, product, user
FROM camp`. -/
structure NudgedRow where
  month : Option Timestamp
  product : String
  user : Option String
deriving DecidableEq, Repr

/-- The `nudged` CTE. -/
def nudged (c : List CampRow) : List NudgedRow :=
  (c.map (fun r => NudgedRow.mk r.month r.product r.user)).dedup

/-- The CASE expression of step 7: `COALESCE(a.days, 0) = 0` gives bucket
"0", `a.days BETWEEN 1 AND 10` gives "1-10", else ">10". -/
def bucketOf (days : Option Nat) : String :=
  match days with
  | none => "0"
  | some d => if d = 0 then "0" else if 1 ≤ d ∧ d ≤ 10 then "1-10" else ">10"

/-- One row of `nudge_vs_activity`. -/
structure NVARow where
  month : Option Timestamp
  product : String
  active_bucket : String
  users : Nat
deriving DecidableEq, Repr

/-- The LEFT JOIN of step 7: each nudged row paired with the days of its
matching `act_days` row, or NULL when none matches. -/
def nudgeJoined (c : List CampRow) (a : List ActRow) : List (NudgedRow × Option Nat) :=
  let ad := act_days a
  (nudged c).flatMap (fun n =>
    let ms := ad.filter (fun d => matchAct d n.user n.month n.product)
    if ms.isEmpty then [(n, none)] else ms.map (fun d => (n, some d.days)))

/-- Step 7: bucket each joined row and count rows per
(month, product, bucket). -/
def nudge_vs_activity (c : List CampRow) (a : List ActRow) : List NVARow :=
  let j := nudgeJoined c a
  (groupKeys (fun r => (r.1.month, r.1.product, bucketOf r.2)) j).map (fun k =>
    { month := k.1
      product := k.2.1
      active_bucket := k.2.2
      users := countStar (groupRows (fun r => (r.1.month, r.1.product, bucketOf r.2)) j k) })

/-! ## Step 8: campaign_perf -/

/-- One row of the `segmented` CTE: a `camp` row with
`days = COALESCE(a.days, 0)` from the left join against `activity_seg`. -/
structure SegRow where
  month : Option Timestamp
  product : String
  sendout_name : Option String
  user : Option String
  delivered : Bool
  clicks : Option Int
  days : Nat
deriving DecidableEq, Repr

/-- The `segmented` CTE of step 8: LEFT JOIN of `camp` (= `msgs`) against
`activity_seg` on user, month and product, with `COALESCE(a.days, 0)`. -/
def segmented (c : List CampRow) (a : List ActRow) : List SegRow :=
  let ad := act_days a
  c.flatMap (fun m =>
    let ms := ad.filter (fun d => matchAct d m.user m.month m.product)
    if ms.isEmpty then
      [{ month := m.month, product := m.product, sendout_name := m.sendout_name
         user := m.user, delivered := m.delivered, clicks := m.clicks, days := 0 }]
    else ms.map (fun d =>
      { month := m.month, product := m.product, sendout_name := m.sendout_name
        user := m.user, delivered := m.delivered, clicks := m.clicks, days := d.days }))

/-- One row of `campaign_perf`. -/
structure CampaignRow where
  month : Option Timestamp
  product : String
  sendout_name : Option String
  sent : Nat
  delivered : Nat
  clicks : Option Int
  inactive_pct : Option ℚ
  active_pct : Option ℚ
  high_pct : Option ℚ
deriving DecidableEq, Repr

/-- Step 8: group `segmented` by (month, product, sendout_name);
`sent`/`delivered` are distinct-user counts, `clicks = SUM(clicks)`, and
the three percentages divide `COUNT(*) FILTER (days-range)` by `COUNT(*)`
of the group. -/
def campaign_perf (c : List CampRow) (a : List ActRow) : List CampaignRow :=
  let seg := segmented c a
  (groupKeys (fun s => (s.month, s.product, s.sendout_name)) seg).map (fun k =>
    let g := groupRows (fun s => (s.month, s.product, s.sendout_name)) seg k
    let n := countStar g
    { month := k.1
      product := k.2.1
      sendout_name := k.2.2
      sent := countDistinct (g.map (fun s => s.user))
      delivered := countDistinct (g.map (fun s => if s.delivered then s.user else none))
      clicks := sumNull (g.map (fun s => s.clicks))
      inactive_pct := (divNull ((countStar (g.filter (fun s => decide (s.days = 0))) : ℚ) * 100) (n : ℚ)).map round1
      active_pct := (divNull ((countStar (g.filter (fun s => decide (1 ≤ s.days ∧ s.days ≤ 10))) : ℚ) * 100) (n : ℚ)).map round1
      high_pct := (divNull ((countStar (g.filter (fun s => decide (10 < s.days))) : ℚ) * 100) (n : ℚ)).map round1 })

/-! ## Persistence model (file-level behaviour of the script) -/

/-- The tables created by the eight `CREATE TABLE` statements, in
execution order. -/
def buildSteps : List String :=
  ["camp_raw", "product_map", "camp", "act",
   "monthly_metrics", "funnel_by_product", "nudge_vs_activity", "campaign_perf"]

/-- The intermediate tables dropped at the end of a successful run. -/
def intermediateTables : List String := ["camp_raw", "camp", "act", "product_map"]

/-- The four output tables a completed run leaves behind. -/
def outputTables : List String :=
  ["monthly_metrics", "funnel_by_product", "nudge_vs_activity", "campaign_perf"]

/-- File-level state of `connectly_slim.duckdb`: `none` means the file is
absent, `some ts` means it holds exactly the tables `ts`.  The script
starts with `os.remove(OUT_DB)` when the file exists, then
`duckdb.connect(OUT_DB)` creates a fresh empty database — the previous
contents are discarded unconditionally before any table is built.
`failAt = some k` means the k-th `CREATE TABLE` statement raises (for
example a `read_parquet` failure) and the script aborts there;
`failAt = none` is a run to completion, which drops the intermediates. -/
def runBuild (failAt : Option Nat) (_prev : Option (List String)) : Option (List String) :=
  match failAt with
  | some k => some (buildSteps.take k)
  | none => some (buildSteps.filter (fun t => !(intermediateTables.contains t)))

/-! ## Derived lookups used to state properties of the two left joins -/

/-- The activity-day count the join of steps 7/8 associates to a
dispatch-side (user, month, product): the `days` of the matching
`act_days` row, or NULL when none matches. -/
def daysFound (a : List ActRow) (u : Option String) (m : Option Timestamp) (p : String) : Option Nat :=
  (((act_days a).filter (fun d => matchAct d u m p)).map (fun d => d.days)).head?

/-- `COALESCE` of `daysFound`, matching the `COALESCE(a.days, 0)` of
step 8. -/
def daysOf (a : List ActRow) (u : Option String) (m : Option Timestamp) (p : String) : Nat :=
  (daysFound a u m p).getD 0

/-- The `camp` rows belonging to a given `campaign_perf` row's
(month, product, sendout_name) group. -/
def campaignRows (c : List CampRow) (r : CampaignRow) : List CampRow :=
  c.filter (fun x => decide ((x.month, x.product, x.sendout_name) = (r.month, r.product, r.sendout_name)))

/-- A campaign activity percentage computed at message-row granularity:
rows whose user's activity-day count satisfies `p`, over all rows of the
group, times 100, rounded to 1 decimal. -/
def pct_rows (a : List ActRow) (g : List CampRow) (p : Nat → Bool) : Option ℚ :=
  (divNull ((countStar (g.filter (fun x => p (daysOf a x.user x.month x.product))) : ℚ) * 100)
    (countStar g : ℚ)).map round1

/-! ## Specification-side readings, for refinement comparisons only -/

/-- Spec reading of `sent` in `monthly_metrics` (claim C2): the number of
distinct (user, dispatch day) identities among the raw dispatch rows of a
month — compared against what the code computes. -/
def sent_spec_user_day (camp_raw : List CampRawRow) (m : Option Timestamp) : Nat :=
  countDistinct ((camp_raw.filter (fun cr => decide (cr.dispatched_at.map dateTruncMonth = m))).map
    (fun cr => match cr.user, cr.dispatched_at with
      | some u, some t => some (u, t)
      | _, _ => none))

/-- Spec reading of a `campaign_perf` activity percentage (claim C6):
distinct users whose days satisfy `p`, over the campaign's `sent` count of
distinct users, times 100, rounded to 1 decimal. -/
def pct_of_sent_spec (g : List SegRow) (p : SegRow → Bool) : Option ℚ :=
  (divNull ((countDistinct ((g.filter p).map (fun s => s.user)) : ℚ) * 100)
    (countDistinct (g.map (fun s => s.user)) : ℚ)).map round1

/-- The `segmented` rows of a given `campaign_perf` row's group. -/
def campaignGroup (c : List CampRow) (a : List ActRow) (r : CampaignRow) : List SegRow :=
  groupRows (fun s => (s.month, s.product, s.sendout_name)) (segmented c a)
    (r.month, r.product, r.sendout_name)

/-! ## Concrete inputs used by counterexamples and witnesses -/

/-- January 5, 2025. -/
def tJan5 : Timestamp := ⟨2025, 1, 5⟩

/-- The January 2025 month bucket. -/
def mJan : Timestamp := ⟨2025, 1, 1⟩

/-- A dispatch event with `button_responses = NULL, link_clicks = 5`. -/
def crNullClicks : CampRawRow :=
  ⟨some "u", some "b", some "s", some tJan5, none, none, some 5⟩

/-- Two dispatch events to the same user on the same day, under two
different campaigns (one delivered, one not). -/
def crsSameDay : List CampRawRow :=
  [⟨some "u", some "b", some "s1", some tJan5, some "d", some 0, some 0⟩,
   ⟨some "u", some "b", some "s2", some tJan5, none, some 0, some 0⟩]

/-- A map carrying only business id "b". -/
def mapA : List MapRow := [⟨some "b", some "A"⟩]

/-- A dispatch event whose business id "zz" has no entry in `mapA`. -/
def crUnmapped : CampRawRow :=
  ⟨some "u", some "zz", some "s", some tJan5, some "d", some 1, some 2⟩

/-- A dispatch event lacking `dispatched_at`. -/
def crNoDate : CampRawRow :=
  ⟨some "u", some "b", some "s", none, some "d", some 1, some 1⟩

/-- One campaign, user "x" messaged twice and user "y" once. -/
def campTwoUsers : List CampRow :=
  [⟨some mJan, "A", some "s", some "x", false, none⟩,
   ⟨some mJan, "A", some "s", some "x", false, none⟩,
   ⟨some mJan, "A", some "s", some "y", false, none⟩]

/-- User "y" active on five distinct January days in product "A". -/
def actFiveDays : List ActRow :=
  (List.range 5).map (fun d => ⟨some "y", some "A", some ⟨2025, 1, d + 1⟩, some mJan⟩)

/-- A single nudged user "u" in product "A". -/
def campNudge : List CampRow :=
  [⟨some mJan, "A", some "s", some "u", true, none⟩]

/-- User "u" active on `n` distinct January days in product "A". -/
def actNDays (n : Nat) : List ActRow :=
  (List.range n).map (fun d => ⟨some "u", some "A", some ⟨2025, 1, d + 1⟩, some mJan⟩)

/-- A campaign whose only dispatch row has a NULL user. -/
def campNullUser : List CampRow :=
  [⟨some mJan, "A", some "s", none, true, some 1⟩]

/-- A one-row campaign for witnesses. -/
def campOne : List CampRow :=
  [⟨some mJan, "A", some "s", some "u", true, some 1⟩]

/-- A fallback `MonthlyRow` for total list access. -/
def defaultMonthlyRow : MonthlyRow := ⟨none, 0, 0, none, 0, 0⟩

/-- A fallback `FunnelRow` for total list access. -/
def defaultFunnelRow : FunnelRow := ⟨none, "", 0, 0, 0, none, none⟩

/-- A fallback `CampaignRow` for total list access. -/
def defaultCampaignRow : CampaignRow := ⟨none, "", none, 0, 0, none, none, none, none⟩

/-- The single `monthly_metrics` row of the two-same-day-dispatch build. -/
def monthlyRowSameDay : MonthlyRow :=
  ((monthly_metrics (camp [] crsSameDay)).head?).getD defaultMonthlyRow

/-- The single `monthly_metrics` row of the `campNullUser` build. -/
def monthlyRowNullUser : MonthlyRow :=
  ((monthly_metrics campNullUser).head?).getD defaultMonthlyRow

/-- The single `funnel_by_product` row of the `campNullUser` build. -/
def funnelRowNullUser : FunnelRow :=
  ((funnel_by_product campNullUser).head?).getD defaultFunnelRow

/-- The single `campaign_perf` row of the `campOne` build. -/
def campaignRowOne : CampaignRow :=
  ((campaign_perf campOne []).head?).getD defaultCampaignRow

/-- The single `campaign_perf` row of the campTwoUsers build against the
five-day activity of user "y". -/
def campaignRowTwoUsers : CampaignRow :=
  ((campaign_perf campTwoUsers actFiveDays).head?).getD defaultCampaignRow

/-! ## Lemmas about the grouping combinators -/

theorem mem_groupKeys {α κ : Type} [DecidableEq κ] {key : α → κ} {l : List α} {k : κ} :
    k ∈ groupKeys key l ↔ ∃ a ∈ l, key a = k := by
  simp [groupKeys, List.mem_dedup, List.mem_map]

theorem mem_groupKeys_of_mem {α κ : Type} [DecidableEq κ] {key : α → κ} {l : List α} {x : α}
    (hx : x ∈ l) : key x ∈ groupKeys key l :=
  mem_groupKeys.mpr ⟨x, hx, rfl⟩

theorem mem_groupRows {α κ : Type} [DecidableEq κ] {key : α → κ} {l : List α} {k : κ} {a : α} :
    a ∈ groupRows key l k ↔ a ∈ l ∧ key a = k := by
  simp [groupRows, List.mem_filter]

theorem groupRows_length_pos {α κ : Type} [DecidableEq κ] {key : α → κ} {l : List α} {k : κ}
    (hk : k ∈ groupKeys key l) : 0 < (groupRows key l k).length := by
  obtain ⟨a, ha, hak⟩ := mem_groupKeys.mp hk
  exact List.length_pos.mpr (List.ne_nil_of_mem (mem_groupRows.mpr ⟨ha, hak⟩))

theorem mem_table {α κ β : Type} [DecidableEq κ] {key : α → κ} {mk : κ → β} {l : List α} {x : α}
    (hx : x ∈ l) : mk (key x) ∈ (groupKeys key l).map mk :=
  List.mem_map.mpr ⟨key x, mem_groupKeys_of_mem hx, rfl⟩

/-! ## Lemmas about the NULL-rejecting join condition -/

theorem optEq_eq_true_imp_eq {α : Type} [DecidableEq α] {x y : Option α}
    (h : optEq x y = true) : x = y := by
  cases x <;> cases y <;> simp_all [optEq]

theorem matchAct_key {d : ActDays} {u : Option String} {m : Option Timestamp} {p : String}
    (h : matchAct d u m p = true) : d.user = u ∧ d.month = m ∧ d.product = some p := by
  simp only [matchAct, Bool.and_eq_true] at h
  exact ⟨optEq_eq_true_imp_eq h.1.1, optEq_eq_true_imp_eq h.1.2, optEq_eq_true_imp_eq h.2⟩

theorem length_filter_le_one_of_nodup_map {α κ : Type} {f : α → κ} :
    ∀ {l : List α}, (l.map f).Nodup → ∀ {p : α → Bool},
      (∀ a b, p a = true → p b = true → f a = f b) → (l.filter p).length ≤ 1 := by
  intro l
  induction l with
  | nil => intro _ p hp; simp
  | cons x t ih =>
    intro hnd p hp
    rw [List.map_cons, List.nodup_cons] at hnd
    by_cases hx : p x = true
    · rw [List.filter_cons_of_pos hx]
      have ht : t.filter p = [] := by
        rw [List.eq_nil_iff_forall_not_mem]
        intro b hb
        rw [List.mem_filter] at hb
        exact hnd.1 (List.mem_map.mpr ⟨b, hb.1, hp b x hb.2 hx⟩)
      rw [ht]
      simp
    · rw [List.filter_cons_of_neg (by simpa using hx)]
      exact ih hnd.2 hp

theorem lengthLeOneCases {α : Type} : ∀ {l : List α}, l.length ≤ 1 → l = [] ∨ ∃ a, l = [a]
  | [], _ => Or.inl rfl
  | [a], _ => Or.inr ⟨a, rfl⟩
  | _ :: _ :: _, h => absurd h (by simp)

/-! ## The two left joins hit at most one `act_days` row per dispatch row -/

theorem act_days_map_key (a : List ActRow) :
    (act_days a).map (fun d => (d.user, d.month, d.product))
      = groupKeys (fun r => (r.user, r.month, r.product)) a := by
  unfold act_days
  rw [List.map_map]
  rw [List.map_congr_left (g := fun k => k) (by rintro ⟨k1, k2, k3⟩ _; rfl)]
  exact List.map_id _

theorem actDays_filter_len_le_one (a : List ActRow) (u : Option String) (m : Option Timestamp)
    (p : String) : ((act_days a).filter (fun d => matchAct d u m p)).length ≤ 1 := by
  apply length_filter_le_one_of_nodup_map (f := fun d => (d.user, d.month, d.product))
  · rw [act_days_map_key]
    exact List.nodup_dedup _
  · intro d1 d2 h1 h2
    obtain ⟨e1, e2, e3⟩ := matchAct_key h1
    obtain ⟨g1, g2, g3⟩ := matchAct_key h2
    simp [e1, e2, e3, g1, g2, g3]

theorem flatMap_leftJoin_eq_map {α β : Type} (l : List α) (ms : α → List ActDays)
    (g : α → β) (f : α → Nat → β) (h : ∀ x, (ms x).length ≤ 1) :
    (l.flatMap (fun x => if (ms x).isEmpty then [g x] else (ms x).map (fun d => f x d.days)))
      = l.map (fun x =>
          match ((ms x).map (fun d => d.days)).head? with
          | none => g x
          | some n => f x n) := by
  induction l with
  | nil => rfl
  | cons x t ih =>
    have hx : (if (ms x).isEmpty then [g x] else (ms x).map (fun d => f x d.days))
        = [match ((ms x).map (fun d => d.days)).head? with
           | none => g x
           | some n => f x n] := by
      rcases lengthLeOneCases (h x) with h0 | ⟨d, hd⟩
      · rw [h0]; rfl
      · rw [hd]; rfl
    rw [List.flatMap_cons, hx, List.singleton_append, List.map_cons, ih]

theorem segmented_eq_map (c : List CampRow) (a : List ActRow) :
    segmented c a = c.map (fun m =>
      SegRow.mk m.month m.product m.sendout_name m.user m.delivered m.clicks
        (daysOf a m.user m.month m.product)) := by
  show c.flatMap _ = _
  rw [flatMap_leftJoin_eq_map c
    (fun m => (act_days a).filter (fun d => matchAct d m.user m.month m.product))
    (fun m => SegRow.mk m.month m.product m.sendout_name m.user m.delivered m.clicks 0)
    (fun m n => SegRow.mk m.month m.product m.sendout_name m.user m.delivered m.clicks n)
    (fun m => actDays_filter_len_le_one a m.user m.month m.product)]
  apply List.map_congr_left
  intro m _
  show (match daysFound a m.user m.month m.product with
        | none => SegRow.mk m.month m.product m.sendout_name m.user m.delivered m.clicks 0
        | some n => SegRow.mk m.month m.product m.sendout_name m.user m.delivered m.clicks n)
      = SegRow.mk m.month m.product m.sendout_name m.user m.delivered m.clicks
          (daysOf a m.user m.month m.product)
  unfold daysOf
  cases daysFound a m.user m.month m.product <;> rfl

theorem nudgeJoined_eq_map (c : List CampRow) (a : List ActRow) :
    nudgeJoined c a = (nudged c).map (fun n => (n, daysFound a n.user n.month n.product)) := by
  show (nudged c).flatMap _ = _
  rw [flatMap_leftJoin_eq_map (nudged c)
    (fun n => (act_days a).filter (fun d => matchAct d n.user n.month n.product))
    (fun n => (n, none))
    (fun n k => (n, some k))
    (fun n => actDays_filter_len_le_one a n.user n.month n.product)]
  apply List.map_congr_left
  intro n _
  show (match daysFound a n.user n.month n.product with
        | none => (n, none)
        | some k => (n, some k))
      = (n, daysFound a n.user n.month n.product)
  cases daysFound a n.user n.month n.product <;> rfl

/-! ## Rounding and partition lemmas -/

theorem abs_round1_sub_le (q : ℚ) : |round1 q - q| ≤ 1/20 := by
  have h1 : ((⌊q * 10 + 1/2⌋ : ℤ) : ℚ) ≤ q * 10 + 1/2 := Int.floor_le _
  have h2 : q * 10 + 1/2 - 1 < ((⌊q * 10 + 1/2⌋ : ℤ) : ℚ) := Int.sub_one_lt_floor _
  rw [round1, roundHalf, abs_le]
  constructor <;> linarith

theorem length_filter_three_partition {α : Type} (l : List α) (p q r : α → Bool)
    (h : ∀ x, (p x = true ∧ q x = false ∧ r x = false)
      ∨ (p x = false ∧ q x = true ∧ r x = false)
      ∨ (p x = false ∧ q x = false ∧ r x = true)) :
    (l.filter p).length + (l.filter q).length + (l.filter r).length = l.length := by
  induction l with
  | nil => rfl
  | cons x t ih =>
    rcases h x with ⟨h1, h2, h3⟩ | ⟨h1, h2, h3⟩ | ⟨h1, h2, h3⟩ <;>
      simp [List.filter_cons, h1, h2, h3, List.length_cons] <;> omega

/-! ## Pipeline-level helper lemmas -/

theorem joinProducts_ne_nil (pm : List MapRow) (cr : CampRawRow) : joinProducts pm cr ≠ [] := by
  unfold joinProducts
  cases hms : pm.filter (fun p => optEq p.business_id cr.business_id) with
  | nil => simp [hms]
  | cons y ys => simp [hms]

theorem exists_mem_camp (pm : List MapRow) (crs : List CampRawRow) {cr : CampRawRow}
    (h : cr ∈ crs) :
    ∃ x ∈ camp pm crs, x.month = cr.dispatched_at.map dateTruncMonth ∧
      x.sendout_name = cr.sendout_name ∧ x.user = cr.user ∧
      x.delivered = cr.delivered.isSome ∧
      x.clicks = addNull cr.button_responses cr.link_clicks := by
  obtain ⟨prod, hprod⟩ := List.exists_mem_of_ne_nil _ (joinProducts_ne_nil pm cr)
  refine ⟨{ month := cr.dispatched_at.map dateTruncMonth
            product := prod.getD "Unknown"
            sendout_name := cr.sendout_name
            user := cr.user
            delivered := cr.delivered.isSome
            clicks := addNull cr.button_responses cr.link_clicks }, ?_, rfl, rfl, rfl, rfl, rfl⟩
  exact List.mem_flatMap.mpr ⟨cr, h, List.mem_map.mpr ⟨prod, hprod, rfl⟩⟩

theorem exists_mem_camp_unknown (pm : List MapRow) (crs : List CampRawRow) {cr : CampRawRow}
    (h : cr ∈ crs) (hun : ∀ p ∈ pm, optEq p.business_id cr.business_id = false) :
    ∃ x ∈ camp pm crs, x.product = "Unknown" ∧
      x.month = cr.dispatched_at.map dateTruncMonth ∧
      x.user = cr.user ∧ x.sendout_name = cr.sendout_name := by
  have hjp : joinProducts pm cr = [none] := by
    unfold joinProducts
    have hnil : pm.filter (fun p => optEq p.business_id cr.business_id) = [] :=
      List.filter_eq_nil_iff.mpr (by intro p hp; simp [hun p hp])
    simp [hnil]
  refine ⟨{ month := cr.dispatched_at.map dateTruncMonth
            product := (none : Option String).getD "Unknown"
            sendout_name := cr.sendout_name
            user := cr.user
            delivered := cr.delivered.isSome
            clicks := addNull cr.button_responses cr.link_clicks }, ?_, rfl, rfl, rfl, rfl⟩
  refine List.mem_flatMap.mpr ⟨cr, h, List.mem_map.mpr ⟨none, ?_, rfl⟩⟩
  rw [hjp]
  exact List.mem_singleton_self none

theorem exists_monthly_row {c : List CampRow} {x : CampRow} (hx : x ∈ c) :
    ∃ r ∈ monthly_metrics c, r.month = x.month ∧ 1 ≤ r.sent := by
  have hk : x.month ∈ groupKeys (fun r : CampRow => r.month) c := mem_groupKeys_of_mem hx
  refine ⟨_, List.mem_map.mpr ⟨x.month, hk, rfl⟩, rfl, ?_⟩
  exact groupRows_length_pos hk

theorem funnel_product_ne_unknown {c : List CampRow} {r : FunnelRow}
    (hr : r ∈ funnel_by_product c) : r.product ≠ "Unknown" := by
  simp only [funnel_by_product] at hr
  rw [List.mem_map] at hr
  obtain ⟨k, hk, rfl⟩ := hr
  obtain ⟨x, hx, hxk⟩ := mem_groupKeys.mp hk
  rw [List.mem_filter] at hx
  have hxp : x.product ≠ "Unknown" := by simpa using hx.2
  rw [← hxk]
  exact hxp

theorem exists_campaign_row {c : List CampRow} (a : List ActRow) {x : CampRow} (hx : x ∈ c) :
    ∃ r ∈ campaign_perf c a, r.month = x.month ∧ r.product = x.product ∧
      r.sendout_name = x.sendout_name := by
  have hseg : (SegRow.mk x.month x.product x.sendout_name x.user x.delivered x.clicks
      (daysOf a x.user x.month x.product)) ∈ segmented c a := by
    rw [segmented_eq_map]
    exact List.mem_map.mpr ⟨x, hx, rfl⟩
  have hk : (x.month, x.product, x.sendout_name)
      ∈ groupKeys (fun s : SegRow => (s.month, s.product, s.sendout_name)) (segmented c a) :=
    mem_groupKeys_of_mem hseg
  exact ⟨_, List.mem_map.mpr ⟨(x.month, x.product, x.sendout_name), hk, rfl⟩, rfl, rfl, rfl⟩

theorem nudge_bucket_row {c : List CampRow} (a : List ActRow) {n : NudgedRow}
    (hn : n ∈ nudged c) :
    ∃ r ∈ nudge_vs_activity c a, r.month = n.month ∧ r.product = n.product ∧
      r.active_bucket = bucketOf (daysFound a n.user n.month n.product) ∧ 1 ≤ r.users := by
  have hj : (n, daysFound a n.user n.month n.product) ∈ nudgeJoined c a := by
    rw [nudgeJoined_eq_map]
    exact List.mem_map.mpr ⟨n, hn, rfl⟩
  have hk := @mem_groupKeys_of_mem (NudgedRow × Option Nat) _ _
    (fun r => (r.1.month, r.1.product, bucketOf r.2)) _ _ hj
  exact ⟨_, List.mem_map.mpr ⟨_, hk, rfl⟩, rfl, rfl, rfl, groupRows_length_pos hk⟩

theorem divNull_map_none_iff (a b : ℚ) (f : ℚ → ℚ) : (divNull a b).map f = none ↔ b = 0 := by
  rw [divNull]
  by_cases h : b = 0 <;> simp [h]

theorem divNull_map_some (a b : ℚ) (f : ℚ → ℚ) (h : b ≠ 0) :
    (divNull a b).map f = some (f (a / b)) := by
  rw [divNull, if_neg h]
  rfl

theorem map_round1_divNull_none_iff {x y : Nat} :
    ((divNull ((x : ℚ) * 100) (y : ℚ)).map round1 = none) ↔ y = 0 := by
  rw [divNull_map_none_iff]
  exact Nat.cast_eq_zero

theorem map_round1_divNull_some {x y : Nat} (h : 0 < y) :
    ∃ q, (divNull ((x : ℚ) * 100) (y : ℚ)).map round1 = some q :=
  ⟨_, divNull_map_some _ _ _ (Nat.cast_ne_zero.mpr (Nat.pos_iff_ne_zero.mp h))⟩

/-! ## Membership of the named concrete rows in their tables -/

theorem monthlyRowSameDay_mem : monthlyRowSameDay ∈ monthly_metrics (camp [] crsSameDay) :=
  List.mem_map.mpr ⟨some mJan, by decide, rfl⟩

theorem monthlyRowNullUser_mem : monthlyRowNullUser ∈ monthly_metrics campNullUser :=
  List.mem_map.mpr ⟨some mJan, by decide, rfl⟩

theorem funnelRowNullUser_mem : funnelRowNullUser ∈ funnel_by_product campNullUser :=
  List.mem_map.mpr ⟨(some mJan, "A"), by decide, rfl⟩

theorem campaignRowOne_mem : campaignRowOne ∈ campaign_perf campOne [] :=
  List.mem_map.mpr ⟨(some mJan, "A", some "s"), by decide, rfl⟩

theorem campaignRowTwoUsers_mem :
    campaignRowTwoUsers ∈ campaign_perf campTwoUsers actFiveDays :=
  List.mem_map.mpr ⟨(some mJan, "A", some "s"), by decide, rfl⟩

/-! ## Claim theorems -/

/-- Claim C1, behaviour of the code at the failing input: a dispatch event
with `button_responses = NULL` and `link_clicks = 5` is normalized with
`clicks = NULL`, not `clicks = 5` — the addition in step 3 propagates NULL
because the source has no COALESCE around it. -/
theorem C1_null_clicks_propagate :
    (camp [] [crNullClicks]).map (fun r => r.clicks) = [none] := by
  rfl

/-- Claim C2 as stated is false: `sent` in `monthly_metrics` is the raw
row count `COUNT(*)`, not the count of distinct (user, day) dispatch
identities; two same-day dispatches to one user yield `sent = 2` while
the distinct identity count is 1. -/
theorem C2_counterexample :
    ¬ (∀ (pm : List MapRow) (crs : List CampRawRow) (r : MonthlyRow),
        r ∈ monthly_metrics (camp pm crs) → r.sent = sent_spec_user_day crs r.month) := by
  intro h
  exact absurd (h [] crsSameDay monthlyRowSameDay monthlyRowSameDay_mem) (by decide)

/-- Claim C2 amended: in every row of `monthly_metrics`, `sent` equals the
number of normalized dispatch rows of that month (raw multiplicity, one
per dispatch row after the product join), not the count of distinct
(user, day) identities. -/
theorem C2_amended_sent_is_row_count (c : List CampRow) (r : MonthlyRow)
    (hr : r ∈ monthly_metrics c) :
    r.sent = (c.filter (fun x => decide (x.month = r.month))).length := by
  simp only [monthly_metrics] at hr
  rw [List.mem_map] at hr
  obtain ⟨m, hm, rfl⟩ := hr
  rfl

/-- Witness for the amended C2 at a concrete build. -/
theorem C2_amended_sent_is_row_count_witness :
    monthlyRowSameDay.sent
      = ((camp [] crsSameDay).filter
          (fun x => decide (x.month = monthlyRowSameDay.month))).length :=
  C2_amended_sent_is_row_count (camp [] crsSameDay) monthlyRowSameDay monthlyRowSameDay_mem

/-- Claim C3 as stated is false: a build that fails at the first CREATE
statement does not leave the previously persisted four output tables
intact — the script deleted the store file up front. -/
theorem C3_counterexample :
    runBuild (some 1) (some outputTables) ≠ some outputTables := by
  decide

/-- Claim C3 amended: the script removes the prior store before building,
so a build failing at step k leaves the file holding exactly the first k
build tables — independent of the previous contents — and only a run to
completion leaves the four output tables. -/
theorem C3_amended_prior_store_destroyed (prev : Option (List String)) (k : Nat) :
    runBuild (some k) prev = some (buildSteps.take k) ∧
      runBuild none prev = some outputTables :=
  ⟨rfl, rfl⟩

/-- Claim C9 as stated is false: a raw dispatch row lacking
`dispatched_at` is not discarded — it is normalized with a NULL month. -/
theorem C9_counterexample :
    ¬ (∀ (pm : List MapRow) (crs : List CampRawRow) (x : CampRow),
        x ∈ camp pm crs → x.month ≠ none) := by
  intro h
  exact h [] [crNoDate] ⟨none, "Unknown", some "s", some "u", true, some 2⟩ (by decide) rfl

/-- Claim C9 amended: a raw dispatch row lacking `dispatched_at` is
retained in the normalized set with `month = NULL`, and it is counted in a
NULL-month row of `monthly_metrics` rather than contributing to no output
table. -/
theorem C9_amended_null_month_retained (pm : List MapRow) (crs : List CampRawRow)
    (cr : CampRawRow) (h1 : cr ∈ crs) (h2 : cr.dispatched_at = none) :
    (∃ x ∈ camp pm crs, x.month = none ∧ x.user = cr.user ∧
        x.sendout_name = cr.sendout_name) ∧
    (∃ r ∈ monthly_metrics (camp pm crs), r.month = none ∧ 1 ≤ r.sent) := by
  obtain ⟨x, hx, hm, hs, hu, _, _⟩ := exists_mem_camp pm crs h1
  have hmn : x.month = none := by rw [hm, h2]; rfl
  refine ⟨⟨x, hx, hmn, hu, hs⟩, ?_⟩
  obtain ⟨r, hr, hrm, hrs⟩ := exists_monthly_row hx
  exact ⟨r, hr, by rw [hrm, hmn], hrs⟩

/-- Witness for the amended C9 at a concrete build. -/
theorem C9_amended_null_month_retained_witness :
    (∃ x ∈ camp [] [crNoDate], x.month = none ∧ x.user = crNoDate.user ∧
        x.sendout_name = crNoDate.sendout_name) ∧
    (∃ r ∈ monthly_metrics (camp [] [crNoDate]), r.month = none ∧ 1 ≤ r.sent) :=
  C9_amended_null_month_retained [] [crNoDate] crNoDate (by decide) rfl

/-- Claim C10: every row of `nudge_vs_activity` has `users ≥ 1`; a
(month, product, bucket) combination with no nudged users is simply
absent, never emitted with `users = 0`. -/
theorem C10_users_positive (c : List CampRow) (a : List ActRow) (r : NVARow)
    (hr : r ∈ nudge_vs_activity c a) : 1 ≤ r.users := by
  simp only [nudge_vs_activity] at hr
  rw [List.mem_map] at hr
  obtain ⟨k, hk, rfl⟩ := hr
  exact groupRows_length_pos hk

/-- Witness for C10 at a concrete build. -/
theorem C10_users_positive_witness : 1 ≤ (⟨some mJan, "A", "0", 1⟩ : NVARow).users :=
  C10_users_positive campNudge [] _ (by decide)

/-- Claim C8: a zero denominator in a rate computation yields NULL, never
an error; in `monthly_metrics` the denominator `COUNT(*)` of a group is
always positive so `delivery_rate` is always non-null, and in
`funnel_by_product` the two rates are NULL exactly when the distinct-user
`sent` count is 0 (all users of the group NULL). -/
theorem C8_zero_denominator_yields_null :
    (∀ (c : List CampRow) (r : MonthlyRow), r ∈ monthly_metrics c →
      ∃ q, r.delivery_rate = some q) ∧
    (∀ (c : List CampRow) (r : FunnelRow), r ∈ funnel_by_product c →
      ((r.delivery_rate = none ↔ r.sent = 0) ∧ (r.click_rate = none ↔ r.sent = 0))) := by
  constructor
  · intro c r hr
    simp only [monthly_metrics] at hr
    rw [List.mem_map] at hr
    obtain ⟨m, hm, rfl⟩ := hr
    exact map_round1_divNull_some (groupRows_length_pos hm)
  · intro c r hr
    simp only [funnel_by_product] at hr
    rw [List.mem_map] at hr
    obtain ⟨k, hk, rfl⟩ := hr
    exact ⟨map_round1_divNull_none_iff, map_round1_divNull_none_iff⟩

/-- Witness for C8 at a concrete build: a monthly row with a defined rate,
and a funnel row whose NULL-user group gives `sent = 0` and NULL rates. -/
theorem C8_zero_denominator_yields_null_witness :
    (∃ q, monthlyRowNullUser.delivery_rate = some q) ∧
    (funnelRowNullUser.delivery_rate = none ↔ funnelRowNullUser.sent = 0) :=
  ⟨C8_zero_denominator_yields_null.1 campNullUser monthlyRowNullUser monthlyRowNullUser_mem,
   (C8_zero_denominator_yields_null.2 campNullUser funnelRowNullUser funnelRowNullUser_mem).1⟩

/-- Claim C4 as stated is false: an event with an unmapped business id is
not excluded from `campaign_perf` — step 8 has no product filter, so the
event surfaces as a row with product "Unknown". -/
theorem C4_counterexample :
    ¬ (∀ (pm : List MapRow) (crs : List CampRawRow) (a : List ActRow) (r : CampaignRow),
        r ∈ campaign_perf (camp pm crs) a → r.product ≠ "Unknown") := by
  intro h
  exact h mapA [crUnmapped] [] _
    (List.mem_map.mpr
      ⟨((some mJan : Option Timestamp), "Unknown", (some "s" : Option String)), by decide, rfl⟩)
    rfl

/-- Claim C4 amended: a dispatch event whose business id has no map entry
resolves to product "Unknown", is excluded from `funnel_by_product`, and
is still counted in `monthly_metrics`; however it is NOT excluded from
`campaign_perf` — it appears there under product "Unknown". -/
theorem C4_amended_unknown_in_campaign_perf (pm : List MapRow) (crs : List CampRawRow)
    (a : List ActRow) (cr : CampRawRow) (h1 : cr ∈ crs)
    (h2 : ∀ p ∈ pm, optEq p.business_id cr.business_id = false) :
    (∃ x ∈ camp pm crs, x.product = "Unknown" ∧
        x.month = cr.dispatched_at.map dateTruncMonth ∧
        x.user = cr.user ∧ x.sendout_name = cr.sendout_name) ∧
    (∀ r ∈ funnel_by_product (camp pm crs), r.product ≠ "Unknown") ∧
    (∃ r ∈ monthly_metrics (camp pm crs),
        r.month = cr.dispatched_at.map dateTruncMonth ∧ 1 ≤ r.sent) ∧
    (∃ r ∈ campaign_perf (camp pm crs) a, r.product = "Unknown" ∧
        r.month = cr.dispatched_at.map dateTruncMonth ∧
        r.sendout_name = cr.sendout_name) := by
  obtain ⟨x, hx, hxp, hxm, hxu, hxs⟩ := exists_mem_camp_unknown pm crs h1 h2
  refine ⟨⟨x, hx, hxp, hxm, hxu, hxs⟩, fun r hr => funnel_product_ne_unknown hr, ?_, ?_⟩
  · obtain ⟨r, hr, hrm, hrs⟩ := exists_monthly_row hx
    exact ⟨r, hr, by rw [hrm, hxm], hrs⟩
  · obtain ⟨r, hr, hrm, hrp, hrs⟩ := exists_campaign_row a hx
    exact ⟨r, hr, by rw [hrp, hxp], by rw [hrm, hxm], by rw [hrs, hxs]⟩

/-- Witness for the amended C4 at a concrete build. -/
theorem C4_amended_unknown_in_campaign_perf_witness :
    (∃ x ∈ camp mapA [crUnmapped], x.product = "Unknown" ∧
        x.month = crUnmapped.dispatched_at.map dateTruncMonth ∧
        x.user = crUnmapped.user ∧ x.sendout_name = crUnmapped.sendout_name) ∧
    (∀ r ∈ funnel_by_product (camp mapA [crUnmapped]), r.product ≠ "Unknown") ∧
    (∃ r ∈ monthly_metrics (camp mapA [crUnmapped]),
        r.month = crUnmapped.dispatched_at.map dateTruncMonth ∧ 1 ≤ r.sent) ∧
    (∃ r ∈ campaign_perf (camp mapA [crUnmapped]) [], r.product = "Unknown" ∧
        r.month = crUnmapped.dispatched_at.map dateTruncMonth ∧
        r.sendout_name = crUnmapped.sendout_name) :=
  C4_amended_unknown_in_campaign_perf mapA [crUnmapped] [] crUnmapped (by decide) (by decide)

/-- Claim C7: bucketing in `nudge_vs_activity` uses closed intervals — a
nudged user with exactly 10 matched activity days lands in bucket "1-10",
one with 11 lands in ">10", and one with no matching activity record at
all is kept by the left join and lands in bucket "0". -/
theorem C7_bucket_boundaries (c : List CampRow) (a : List ActRow) (n : NudgedRow)
    (hn : n ∈ nudged c) :
    (daysFound a n.user n.month n.product = some 10 →
      ∃ r ∈ nudge_vs_activity c a, r.month = n.month ∧ r.product = n.product ∧
        r.active_bucket = "1-10" ∧ 1 ≤ r.users) ∧
    (daysFound a n.user n.month n.product = some 11 →
      ∃ r ∈ nudge_vs_activity c a, r.month = n.month ∧ r.product = n.product ∧
        r.active_bucket = ">10" ∧ 1 ≤ r.users) ∧
    (daysFound a n.user n.month n.product = none →
      ∃ r ∈ nudge_vs_activity c a, r.month = n.month ∧ r.product = n.product ∧
        r.active_bucket = "0" ∧ 1 ≤ r.users) := by
  obtain ⟨r, hr, h1, h2, h3, h4⟩ := nudge_bucket_row a hn
  refine ⟨fun hd => ⟨r, hr, h1, h2, ?_, h4⟩, fun hd => ⟨r, hr, h1, h2, ?_, h4⟩,
    fun hd => ⟨r, hr, h1, h2, ?_, h4⟩⟩ <;> rw [h3, hd] <;> rfl

/-- Witness for C7: with exactly ten distinct activity days the nudged
user of `campNudge` lands in bucket "1-10". -/
theorem C7_bucket_boundaries_witness :
    ∃ r ∈ nudge_vs_activity campNudge (actNDays 10), r.month = some mJan ∧
      r.product = "A" ∧ r.active_bucket = "1-10" ∧ 1 ≤ r.users :=
  (C7_bucket_boundaries campNudge (actNDays 10) ⟨some mJan, "A", some "u"⟩ (by decide)).1
    (by decide)

/-- Claim C5: in every row of `campaign_perf` the three activity-segment
percentages are defined and sum to 100 within the rounding tolerance
(at most 0.2, indeed at most 0.15 = three times half an ulp of one
decimal). -/
theorem C5_segmentation_sums_to_100 (c : List CampRow) (a : List ActRow) (r : CampaignRow)
    (hr : r ∈ campaign_perf c a) :
    ∃ i v h, r.inactive_pct = some i ∧ r.active_pct = some v ∧ r.high_pct = some h ∧
      |i + v + h - 100| ≤ 1/5 := by
  simp only [campaign_perf] at hr
  rw [List.mem_map] at hr
  obtain ⟨k, hk, rfl⟩ := hr
  set g := groupRows (fun s : SegRow => (s.month, s.product, s.sendout_name)) (segmented c a) k
    with hg
  have hpos : 0 < g.length := groupRows_length_pos hk
  have hne : ((countStar g : ℚ)) ≠ 0 := Nat.cast_ne_zero.mpr (Nat.pos_iff_ne_zero.mp hpos)
  have hpart : countStar (g.filter (fun s => decide (s.days = 0)))
      + countStar (g.filter (fun s => decide (1 ≤ s.days ∧ s.days ≤ 10)))
      + countStar (g.filter (fun s => decide (10 < s.days))) = countStar g := by
    apply length_filter_three_partition
    intro x
    by_cases h0 : x.days = 0 <;> by_cases h10 : x.days ≤ 10 <;> simp [h0, h10] <;> omega
  have hsum : (countStar (g.filter (fun s => decide (s.days = 0))) : ℚ) * 100 / (countStar g : ℚ)
      + (countStar (g.filter (fun s => decide (1 ≤ s.days ∧ s.days ≤ 10))) : ℚ) * 100 / (countStar g : ℚ)
      + (countStar (g.filter (fun s => decide (10 < s.days))) : ℚ) * 100 / (countStar g : ℚ)
      = 100 := by
    have hc : (countStar (g.filter (fun s => decide (s.days = 0))) : ℚ)
        + (countStar (g.filter (fun s => decide (1 ≤ s.days ∧ s.days ≤ 10))) : ℚ)
        + (countStar (g.filter (fun s => decide (10 < s.days))) : ℚ) = (countStar g : ℚ) := by
      exact_mod_cast hpart
    have habs : ∀ x0 x1 x2 y : ℚ, y ≠ 0 → x0 + x1 + x2 = y →
        x0 * 100 / y + x1 * 100 / y + x2 * 100 / y = 100 := by
      intro x0 x1 x2 y hy hxy
      field_simp
      linarith
    exact habs _ _ _ _ hne hc
  have key : ∀ q0 q1 q2 : ℚ, q0 + q1 + q2 = 100 →
      |round1 q0 + round1 q1 + round1 q2 - 100| ≤ 1/5 := by
    intro q0 q1 q2 hq
    have b0 := abs_round1_sub_le q0
    have b1 := abs_round1_sub_le q1
    have b2 := abs_round1_sub_le q2
    have h3 : round1 q0 + round1 q1 + round1 q2 - 100
        = (round1 q0 - q0) + (round1 q1 - q1) + (round1 q2 - q2) := by linarith
    rw [h3]
    calc |(round1 q0 - q0) + (round1 q1 - q1) + (round1 q2 - q2)|
        ≤ |round1 q0 - q0| + |round1 q1 - q1| + |round1 q2 - q2| := abs_add_three _ _ _
      _ ≤ 1/5 := by linarith
  exact ⟨_, _, _, divNull_map_some _ _ _ hne, divNull_map_some _ _ _ hne,
    divNull_map_some _ _ _ hne, key _ _ _ hsum⟩

/-- Witness for C5 at a concrete build. -/
theorem C5_segmentation_sums_to_100_witness :
    ∃ i v h, campaignRowOne.inactive_pct = some i ∧ campaignRowOne.active_pct = some v ∧
      campaignRowOne.high_pct = some h ∧ |i + v + h - 100| ≤ 1/5 :=
  C5_segmentation_sums_to_100 campOne [] campaignRowOne campaignRowOne_mem

/-- Claim C6 as stated is false: the three `campaign_perf` percentages
are computed over dispatch ROWS (`COUNT(*) FILTER` over `COUNT(*)`), not
over distinct users out of `sent`; with user "x" messaged twice and
inactive, and user "y" messaged once with five activity days, the code
yields inactive_pct = 66.7 while the claimed distinct-user formula gives
50. -/
theorem C6_counterexample :
    ¬ (∀ (c : List CampRow) (a : List ActRow) (r : CampaignRow), r ∈ campaign_perf c a →
        r.inactive_pct
          = pct_of_sent_spec (campaignGroup c a r) (fun s => decide (s.days = 0)) ∧
        r.active_pct
          = pct_of_sent_spec (campaignGroup c a r) (fun s => decide (1 ≤ s.days ∧ s.days ≤ 10)) ∧
        r.high_pct
          = pct_of_sent_spec (campaignGroup c a r) (fun s => decide (10 < s.days))) := by
  intro h
  have h1 := (h campTwoUsers actFiveDays campaignRowTwoUsers campaignRowTwoUsers_mem).1
  have eL : campaignRowTwoUsers.inactive_pct
      = (divNull (((2 : ℕ) : ℚ) * 100) ((3 : ℕ) : ℚ)).map round1 := rfl
  have eR : pct_of_sent_spec (campaignGroup campTwoUsers actFiveDays campaignRowTwoUsers)
        (fun s => decide (s.days = 0))
      = (divNull (((1 : ℕ) : ℚ) * 100) ((2 : ℕ) : ℚ)).map round1 := rfl
  rw [eL, eR] at h1
  norm_num [divNull, round1, roundHalf] at h1

/-- The three percentage columns of a `campaign_perf` group equal the
row-granularity percentages over the camp rows of that group, with each
row's days resolved through the unique matching `act_days` entry. -/
theorem campaign_pct_eq (c : List CampRow) (a : List ActRow)
    (k : Option Timestamp × String × Option String) (P : Nat → Bool) :
    (divNull ((countStar ((groupRows (fun s : SegRow => (s.month, s.product, s.sendout_name))
          (segmented c a) k).filter (fun s => P s.days)) : ℚ) * 100)
        ((countStar (groupRows (fun s : SegRow => (s.month, s.product, s.sendout_name))
          (segmented c a) k)) : ℚ)).map round1
      = pct_rows a (c.filter (fun x => decide ((x.month, x.product, x.sendout_name) = k))) P := by
  have hgrp : groupRows (fun s : SegRow => (s.month, s.product, s.sendout_name)) (segmented c a) k
      = (c.filter (fun x => decide ((x.month, x.product, x.sendout_name) = k))).map
          (fun m => SegRow.mk m.month m.product m.sendout_name m.user m.delivered m.clicks
            (daysOf a m.user m.month m.product)) := by
    rw [segmented_eq_map]
    exact List.filter_map _ _
  rw [hgrp]
  unfold pct_rows
  rw [List.filter_map]
  simp only [countStar, List.length_map]
  rfl

/-- Claim C6 amended: the `campaign_perf` percentages are fractions of
the campaign's dispatch-row count — `inactive_pct` is the share of rows
whose user has 0 matched activity days, and likewise for the other two
buckets — not fractions of the distinct-user `sent` count. -/
theorem C6_amended_pct_of_rows (c : List CampRow) (a : List ActRow) (r : CampaignRow)
    (hr : r ∈ campaign_perf c a) :
    r.inactive_pct = pct_rows a (campaignRows c r) (fun d => decide (d = 0)) ∧
    r.active_pct = pct_rows a (campaignRows c r) (fun d => decide (1 ≤ d ∧ d ≤ 10)) ∧
    r.high_pct = pct_rows a (campaignRows c r) (fun d => decide (10 < d)) := by
  simp only [campaign_perf] at hr
  rw [List.mem_map] at hr
  obtain ⟨k, hk, rfl⟩ := hr
  refine ⟨?_, ?_, ?_⟩
  · exact campaign_pct_eq c a k (fun d => decide (d = 0))
  · exact campaign_pct_eq c a k (fun d => decide (1 ≤ d ∧ d ≤ 10))
  · exact campaign_pct_eq c a k (fun d => decide (10 < d))

/-- Witness for the amended C6 at a concrete build. -/
theorem C6_amended_pct_of_rows_witness :
    campaignRowTwoUsers.inactive_pct
      = pct_rows actFiveDays (campaignRows campTwoUsers campaignRowTwoUsers)
          (fun d => decide (d = 0)) ∧
    campaignRowTwoUsers.active_pct
      = pct_rows actFiveDays (campaignRows campTwoUsers campaignRowTwoUsers)
          (fun d => decide (1 ≤ d ∧ d ≤ 10)) ∧
    campaignRowTwoUsers.high_pct
      = pct_rows actFiveDays (campaignRows campTwoUsers campaignRowTwoUsers)
          (fun d => decide (10 < d)) :=
  C6_amended_pct_of_rows campTwoUsers actFiveDays campaignRowTwoUsers campaignRowTwoUsers_mem
